import Mathlib

/-!
Verification of the cost model in `src/app.py` of Cloud-cost-visualiser.

Numeric values coming from the spreadsheet (rates, scaling parameters) and the
intermediate Python floats are modelled as exact rationals (`ℚ`); integer
quantities (user counts, GPU counts, `hours_per_month`, which the code wraps in
`int(...)`) are modelled as `ℤ` or `ℕ`.  Python `/` is true division; at a zero
denominator it raises `ZeroDivisionError`, which the run-level embedding makes
explicit with an `Except`.
-/

namespace CloudCost

/-- Error kinds relevant to the spec and to the Python runtime behaviour of the
code: `indexError` is what pandas `.iloc[0]` raises on an empty selection,
`zeroDivision` is Python's `ZeroDivisionError`; `invalidInput` and `notFound`
stand for the spec's `InvalidInputError` and `NotFoundError`. -/
inductive PyError where
  | indexError
  | zeroDivision
  | invalidInput
  | notFound
deriving DecidableEq, Repr

/-- One row of the `workloads` worksheet, with the columns `src/app.py`
lines 127-132 read. -/
structure WorkloadRow where
  gpu_type : String
  base_gpus : ℤ
  users_per_gpu : ℚ
  storage_gb_per_gpu : ℚ
  egress_gb_per_gpu_base : ℚ
  egress_gb_per_user : ℚ
deriving DecidableEq, Repr

/-- One row of the `pricing` worksheet, with the columns `src/app.py`
lines 135-137 read. -/
structure PricingRow where
  gpu_type : String
  blended_hourly_usd : ℚ
  storage_price_per_gb_month : ℚ
  egress_price_per_gb : ℚ
deriving DecidableEq, Repr

/-- `src/app.py` line 134: `pricing_df[pricing_df["gpu_type"] == gpu_type].iloc[0]`.
Filtering keeps the rows whose `gpu_type` matches; `.iloc[0]` returns the first
such row and raises `IndexError` when the selection is empty. -/
def pricing_row (pricing : List PricingRow) (g : String) : Except PyError PricingRow :=
  match pricing.filter (fun r => r.gpu_type == g) with
  | [] => .error .indexError
  | r :: _ => .ok r

/-- The inner ceiling of `src/app.py` line 142: `math.ceil(concurrent_users / users_per_gpu)`
(the spec calls this quantity `raw_needed`). -/
def raw_needed (users_per_gpu : ℚ) (concurrent_users : ℤ) : ℤ :=
  ⌈(concurrent_users : ℚ) / users_per_gpu⌉

/-- `src/app.py` line 142: `gpu_count = max(base_gpus, math.ceil(concurrent_users / users_per_gpu))`. -/
def gpu_count (base_gpus : ℤ) (users_per_gpu : ℚ) (concurrent_users : ℤ) : ℤ :=
  max base_gpus (raw_needed users_per_gpu concurrent_users)

/-- Run-level embedding of `src/app.py` line 142 keeping Python's division
semantics explicit: `concurrent_users / users_per_gpu` raises
`ZeroDivisionError` when `users_per_gpu` is zero, and the line performs no
other validation (a negative `users_per_gpu` or `concurrent_users` flows
straight through the arithmetic). -/
def gpu_count_run (base_gpus : ℤ) (users_per_gpu : ℚ) (concurrent_users : ℤ) :
    Except PyError ℤ :=
  if users_per_gpu = 0 then .error .zeroDivision
  else .ok (gpu_count base_gpus users_per_gpu concurrent_users)

/-- `src/app.py` line 145: `compute_cost = gpu_count * gpu_hourly_rate * hours_per_month`. -/
def compute_cost (gpu_count : ℤ) (gpu_hourly_rate : ℚ) (hours_per_month : ℤ) : ℚ :=
  (gpu_count : ℚ) * gpu_hourly_rate * (hours_per_month : ℚ)

/-- `src/app.py` line 148: `total_storage_gb = storage_gb_per_gpu * gpu_count`. -/
def total_storage_gb (storage_gb_per_gpu : ℚ) (gpu_count : ℤ) : ℚ :=
  storage_gb_per_gpu * (gpu_count : ℚ)

/-- `src/app.py` line 149: `storage_cost = total_storage_gb * storage_price_per_gb`. -/
def storage_cost (total_storage_gb storage_price_per_gb : ℚ) : ℚ :=
  total_storage_gb * storage_price_per_gb

/-- `src/app.py` line 152:
`total_egress_gb = (egress_gb_per_gpu_base + (egress_gb_per_user * concurrent_users)) * gpu_count`. -/
def total_egress_gb (egress_gb_per_gpu_base egress_gb_per_user : ℚ)
    (concurrent_users : ℤ) (gpu_count : ℤ) : ℚ :=
  (egress_gb_per_gpu_base + egress_gb_per_user * (concurrent_users : ℚ)) * (gpu_count : ℚ)

/-- `src/app.py` line 153: `egress_cost = total_egress_gb * egress_price_per_gb`. -/
def egress_cost (total_egress_gb egress_price_per_gb : ℚ) : ℚ :=
  total_egress_gb * egress_price_per_gb

/-- The headline computation, `src/app.py` lines 142-156, composed exactly as the
script composes it: `total_cost = compute_cost + storage_cost + egress_cost`. -/
def total_cost (w : WorkloadRow) (p : PricingRow) (hours_per_month : ℤ)
    (concurrent_users : ℤ) : ℚ :=
  let g := gpu_count w.base_gpus w.users_per_gpu concurrent_users
  compute_cost g p.blended_hourly_usd hours_per_month
    + storage_cost (total_storage_gb w.storage_gb_per_gpu g) p.storage_price_per_gb_month
    + egress_cost (total_egress_gb w.egress_gb_per_gpu_base w.egress_gb_per_user
        concurrent_users g) p.egress_price_per_gb

/-- `src/app.py` line 179: `gpus_needed = max(base_gpus, math.ceil(users / users_per_gpu))`. -/
def gpus_needed (w : WorkloadRow) (users : ℤ) : ℤ :=
  max w.base_gpus ⌈(users : ℚ) / w.users_per_gpu⌉

/-- Body of the chart loop, `src/app.py` lines 179-184, producing the
`Monthly Cost` value for one `users` point. -/
def chart_total (w : WorkloadRow) (p : PricingRow) (hours_per_month : ℤ)
    (users : ℤ) : ℚ :=
  let g := gpus_needed w users
  let c_cost := (g : ℚ) * p.blended_hourly_usd * (hours_per_month : ℚ)
  let s_cost := (g : ℚ) * w.storage_gb_per_gpu * p.storage_price_per_gb_month
  let egress_gb := (w.egress_gb_per_gpu_base + w.egress_gb_per_user * (users : ℚ)) * (g : ℚ)
  let e_cost := egress_gb * p.egress_price_per_gb
  c_cost + s_cost + e_cost

/-- The step of the chart loop, `src/app.py` line 178: `max(1, max_users // 50)`. -/
def chart_step (max_users : ℕ) : ℕ :=
  max 1 (max_users / 50)

/-- The user counts visited by `range(1, max_users + 1, max(1, max_users // 50))`
at `src/app.py` line 178: `1 + i * step` for `i` below
`ceil(max_users / step)` elements. -/
def chart_users (max_users : ℕ) : List ℕ :=
  (List.range ((max_users + chart_step max_users - 1) / chart_step max_users)).map
    (fun i => 1 + i * chart_step max_users)

/-- `src/app.py` lines 177-185: the chart series of
`(Concurrent Users, Monthly Cost)` points. -/
def chart_data (w : WorkloadRow) (p : PricingRow) (hours_per_month : ℤ)
    (max_users : ℕ) : List (ℕ × ℚ) :=
  (chart_users max_users).map (fun u => (u, chart_total w p hours_per_month (u : ℤ)))

/-- A GPU upgrade rule as the spec describes it (absent from `src/`). -/
structure GpuUpgradeRule where
  current_gpu : String
  user_threshold : ℤ
  new_gpu : String
  scaling_factor : ℚ
deriving DecidableEq, Repr

/-- Modelled from the spec: no upgrade-rule evaluation exists in `src/`
(`src/app.py` takes `gpu_type` directly from the workload row at line 127; the
spec attributes upgrade rules to other variants of the repository).  Spec §4.2
step 3: among the rules with `current_gpu == gpu_type` and
`num_users >= user_threshold`, select the one with the highest `user_threshold`
(earlier table order winning ties) and apply its `new_gpu`; with no matching
rule the workload's own `gpu_type` stands. -/
def resolve_gpu_type (rules : List GpuUpgradeRule) (gpu_type : String)
    (num_users : ℤ) : String :=
  let matching := rules.filter
    (fun r => r.current_gpu == gpu_type && decide (r.user_threshold ≤ num_users))
  match matching.foldl
      (fun best r =>
        match best with
        | none => some r
        | some b => if b.user_threshold < r.user_threshold then some r else some b)
      none with
  | none => gpu_type
  | some r => r.new_gpu

/-- Example workload fixture used by concrete witnesses. -/
def exWorkload : WorkloadRow :=
  { gpu_type := "A100"
    base_gpus := 1
    users_per_gpu := 25
    storage_gb_per_gpu := 100
    egress_gb_per_gpu_base := 10
    egress_gb_per_user := 1/2 }

/-- Example pricing fixture used by concrete witnesses. -/
def exPricing : PricingRow :=
  { gpu_type := "A100"
    blended_hourly_usd := 2
    storage_price_per_gb_month := 1/50
    egress_price_per_gb := 1/100 }

/-- The upgrade rule of the spec's §8 example: `(current=A, threshold=500, new=B,
scaling_factor=1.0)`. -/
def ruleAB : GpuUpgradeRule :=
  { current_gpu := "A", user_threshold := 500, new_gpu := "B", scaling_factor := 1 }

/-- C1: for `users_per_gpu > 0` and `num_users ≥ 0`, the automatically sized GPU
count is `max(base_gpus, raw_needed)` where `raw_needed` is the ceiling of
`num_users / users_per_gpu`: it covers all users (`num_users ≤ raw_needed *
users_per_gpu`) and is the least integer count that does (not a truncation);
for `users_per_gpu = 25`, `num_users = 101` the raw needed count is `5`. -/
theorem c1_auto_sizing_ceiling (b : ℤ) (upg : ℚ) (u : ℤ)
    (hupg : 0 < upg) (hu : 0 ≤ u) :
    gpu_count b upg u = max b (raw_needed upg u)
      ∧ (u : ℚ) ≤ (raw_needed upg u : ℚ) * upg
      ∧ (∀ k : ℤ, (u : ℚ) ≤ (k : ℚ) * upg → raw_needed upg u ≤ k)
      ∧ raw_needed 25 101 = 5 := by
  refine ⟨rfl, ?_, ?_, ?_⟩
  · have h := Int.le_ceil ((u : ℚ) / upg)
    calc (u : ℚ) = (u : ℚ) / upg * upg := by field_simp
    _ ≤ (raw_needed upg u : ℚ) * upg :=
        mul_le_mul_of_nonneg_right h (le_of_lt hupg)
  · intro k hk
    have : (u : ℚ) / upg ≤ (k : ℚ) := by
      rw [div_le_iff₀ hupg]; exact hk
    exact Int.ceil_le.mpr this
  · show (⌈(101 : ℚ) / 25⌉ : ℤ) = 5
    rw [Int.ceil_eq_iff]
    norm_num

/-- C1 witness at `base_gpus = 1`, `users_per_gpu = 25`, `num_users = 101`. -/
theorem c1_auto_sizing_ceiling_witness :
    gpu_count 1 25 101 = max 1 (raw_needed 25 101) ∧ raw_needed 25 101 = 5 :=
  ⟨(c1_auto_sizing_ceiling 1 25 101 (by norm_num) (by norm_num)).1,
   (c1_auto_sizing_ceiling 1 25 101 (by norm_num) (by norm_num)).2.2.2⟩

/-- C2: the headline estimate is `gpu_count * hourly_rate * hours_per_month`
for compute (with `hours_per_month` a parameter of the computation), `gpu_count
* storage_gb_per_gpu * storage_price_per_gb` for flat-rate storage, and the
exact (unrounded, over `ℚ`) sum of compute, storage and egress cost. -/
theorem c2_cost_formulas (w : WorkloadRow) (p : PricingRow) (hpm : ℤ) (u : ℤ) :
    total_cost w p hpm u =
      (gpu_count w.base_gpus w.users_per_gpu u : ℚ) * p.blended_hourly_usd * (hpm : ℚ)
        + (gpu_count w.base_gpus w.users_per_gpu u : ℚ) * w.storage_gb_per_gpu
            * p.storage_price_per_gb_month
        + egress_cost
            (total_egress_gb w.egress_gb_per_gpu_base w.egress_gb_per_user u
              (gpu_count w.base_gpus w.users_per_gpu u)) p.egress_price_per_gb := by
  simp only [total_cost, compute_cost, storage_cost, total_storage_gb, egress_cost,
    total_egress_gb]
  ring

/-- C3: the billed egress volume is `gpu_count * (egress_gb_per_gpu_base +
egress_gb_per_user * num_users)` — the whole bracket, per-user term included,
is multiplied by `gpu_count` — and egress cost is that volume times the per-GB
egress price. -/
theorem c3_egress_bracket (eb eu epg : ℚ) (u g : ℤ) :
    total_egress_gb eb eu u g = (g : ℚ) * (eb + eu * (u : ℚ))
      ∧ egress_cost (total_egress_gb eb eu u g) epg
          = (g : ℚ) * (eb + eu * (u : ℚ)) * epg := by
  constructor
  · simp only [total_egress_gb]; ring
  · simp only [total_egress_gb, egress_cost]; ring

/-- C5: in automatic mode the GPU count never drops below the workload's
`base_gpus`, both for the headline computation (line 142) and at every user
count of the chart series (line 179). -/
theorem c5_floor_invariant (w : WorkloadRow) (u : ℤ) (mu : ℕ) :
    w.base_gpus ≤ gpu_count w.base_gpus w.users_per_gpu u
      ∧ ∀ x ∈ chart_users mu, w.base_gpus ≤ gpus_needed w (x : ℤ) :=
  ⟨le_max_left _ _, fun _ _ => le_max_left _ _⟩

/-- C5 witness at the example workload, `num_users = 101`, and the first chart
point of `max_users = 10`. -/
theorem c5_floor_invariant_witness :
    exWorkload.base_gpus ≤ gpu_count exWorkload.base_gpus exWorkload.users_per_gpu 101
      ∧ exWorkload.base_gpus ≤ gpus_needed exWorkload ((1 : ℕ) : ℤ) :=
  ⟨(c5_floor_invariant exWorkload 101 10).1,
   (c5_floor_invariant exWorkload 101 10).2 1 (by decide)⟩

/-- C9: the headline computation (lines 142-156) and the chart-loop body
(lines 179-184) compute the same total cost at every user count, given the
same workload and pricing values. -/
theorem c9_headline_chart_equivalent (w : WorkloadRow) (p : PricingRow)
    (hpm : ℤ) (u : ℤ) :
    total_cost w p hpm u = chart_total w p hpm u := by
  simp only [total_cost, chart_total, gpu_count, gpus_needed, raw_needed,
    compute_cost, storage_cost, total_storage_gb, egress_cost, total_egress_gb]
  ring

/-- C6 counterexample: at `users_per_gpu = 0` the sizing line fails with
Python's `ZeroDivisionError` — an unhandled arithmetic fault reaching the
caller — not with `InvalidInputError`; and at `num_users = -5` (with
`users_per_gpu = 25`) it returns normally instead of failing. -/
theorem c6_counterexample :
    gpu_count_run 1 0 100 = .error .zeroDivision
      ∧ PyError.zeroDivision ≠ PyError.invalidInput
      ∧ gpu_count_run 1 25 (-5) = .ok 1 := by
  refine ⟨rfl, by decide, ?_⟩
  have h : gpu_count 1 25 (-5) = 1 := by
    rw [gpu_count, raw_needed]
    rw [show ⌈((-5 : ℤ) : ℚ) / 25⌉ = 0 by rw [Int.ceil_eq_iff] <;> norm_num]
    norm_num
  rw [gpu_count_run, if_neg (by norm_num), h]

/-- C6 amended: the code performs no input validation.  Sizing fails exactly
when `users_per_gpu = 0`, and then with `ZeroDivisionError`; for every other
`users_per_gpu` (negative included) and every `num_users` (negative included)
it is total and returns the line-142 value; it never produces
`InvalidInputError`. -/
theorem c6_no_validation (b : ℤ) (upg : ℚ) (u : ℤ) :
    (gpu_count_run b upg u = .error .zeroDivision ↔ upg = 0)
      ∧ (upg ≠ 0 → gpu_count_run b upg u = .ok (gpu_count b upg u))
      ∧ gpu_count_run b upg u ≠ .error .invalidInput := by
  unfold gpu_count_run
  by_cases h : upg = 0 <;> simp [h]

/-- C6 amended witness at `users_per_gpu = 25`, `num_users = 101`. -/
theorem c6_no_validation_witness :
    gpu_count_run 1 25 101 = .ok (gpu_count 1 25 101) :=
  (c6_no_validation 1 25 101).2.1 (by norm_num)

/-- C7 counterexample: looking up a GPU type absent from the pricing table
raises pandas' `IndexError` (empty selection passed to `.iloc[0]`), not the
spec's `NotFoundError`. -/
theorem c7_counterexample :
    pricing_row [exPricing] "nonexistent-gpu" = .error .indexError
      ∧ PyError.indexError ≠ PyError.notFound := by
  refine ⟨?_, by decide⟩
  rw [pricing_row]
  rfl

/-- C7 amended: pricing lookup succeeds exactly when the GPU type is present
in the pricing table — no default entry and no zero-cost fallback — and any
failure is the `IndexError` of `.iloc[0]` on an empty selection (not
`NotFoundError`). -/
theorem c7_lookup_success_iff (pricing : List PricingRow) (g : String) :
    ((∃ r, pricing_row pricing g = .ok r) ↔ ∃ r ∈ pricing, r.gpu_type = g)
      ∧ ∀ e, pricing_row pricing g = .error e → e = .indexError := by
  refine ⟨⟨?_, ?_⟩, ?_⟩
  · rintro ⟨r, hr⟩
    rw [pricing_row] at hr
    split at hr
    · cases hr
    · rename_i r0 t hf
      have hmem : r0 ∈ pricing.filter (fun x => x.gpu_type == g) := by
        rw [hf]; exact List.mem_cons_self _ _
      rcases List.mem_filter.mp hmem with ⟨hr0, hpred⟩
      exact ⟨r0, hr0, by simpa using hpred⟩
  · rintro ⟨r, hrmem, hrg⟩
    have hmem : r ∈ pricing.filter (fun x => x.gpu_type == g) :=
      List.mem_filter.mpr ⟨hrmem, by simpa using hrg⟩
    rw [pricing_row]
    split
    · rename_i hf
      rw [hf] at hmem
      cases hmem
    · rename_i r0 t hf
      exact ⟨r0, rfl⟩
  · intro e he
    rw [pricing_row] at he
    split at he
    · cases he
      rfl
    · cases he

/-- C7 amended witness: the present key `A100` succeeds on a one-row table. -/
theorem c7_lookup_success_iff_witness :
    ∃ r, pricing_row [exPricing] "A100" = .ok r :=
  (c7_lookup_success_iff [exPricing] "A100").1.mpr
    ⟨exPricing, List.mem_singleton.mpr rfl, rfl⟩

/-- C8: with a single upgrade rule, the resolved GPU type is the rule's
`new_gpu` exactly when the rule matches (`current_gpu` equals the workload's
type and `num_users ≥ user_threshold`) and the workload's own type otherwise;
for the rule `(current=A, threshold=500, new=B)`, `num_users = 499` keeps `A`
and `num_users = 500` yields `B`. -/
theorem c8_upgrade_rule :
    (∀ (r : GpuUpgradeRule) (g : String) (u : ℤ),
        resolve_gpu_type [r] g u =
          if r.current_gpu = g ∧ r.user_threshold ≤ u then r.new_gpu else g)
      ∧ resolve_gpu_type [ruleAB] "A" 499 = "A"
      ∧ resolve_gpu_type [ruleAB] "A" 500 = "B" := by
  have hgen : ∀ (r : GpuUpgradeRule) (g : String) (u : ℤ),
      resolve_gpu_type [r] g u =
        if r.current_gpu = g ∧ r.user_threshold ≤ u then r.new_gpu else g := by
    intro r g u
    by_cases h1 : r.current_gpu = g <;> by_cases h2 : r.user_threshold ≤ u <;>
      simp [resolve_gpu_type, List.filter_singleton, h1, h2]
  refine ⟨hgen, ?_, ?_⟩
  · rw [hgen]
    simp [ruleAB]
  · rw [hgen]
    simp [ruleAB]

/-- C4: under the data-model invariants (`users_per_gpu > 0`, `base_gpus ≥ 1`,
all rates and scaling parameters non-negative, non-negative configured hours)
and with no manual override (the code has none), the headline total cost is
non-decreasing in the user count. -/
theorem c4_total_cost_monotone (w : WorkloadRow) (p : PricingRow) (hpm : ℤ)
    (hupg : 0 < w.users_per_gpu) (hbase : 1 ≤ w.base_gpus)
    (hhr : 0 ≤ p.blended_hourly_usd) (hsp : 0 ≤ p.storage_price_per_gb_month)
    (hep : 0 ≤ p.egress_price_per_gb) (hsg : 0 ≤ w.storage_gb_per_gpu)
    (heb : 0 ≤ w.egress_gb_per_gpu_base) (heu : 0 ≤ w.egress_gb_per_user)
    (hhpm : 0 ≤ hpm) (u1 u2 : ℤ) (h12 : u1 ≤ u2) :
    total_cost w p hpm u1 ≤ total_cost w p hpm u2 := by
  have h12q : (u1 : ℚ) ≤ (u2 : ℚ) := by exact_mod_cast h12
  have hraw : raw_needed w.users_per_gpu u1 ≤ raw_needed w.users_per_gpu u2 := by
    apply Int.ceil_le_ceil
    rw [div_le_div_iff_of_pos_right hupg]
    exact h12q
  have hg : gpu_count w.base_gpus w.users_per_gpu u1
      ≤ gpu_count w.base_gpus w.users_per_gpu u2 :=
    max_le_max (le_refl _) hraw
  set g1 := gpu_count w.base_gpus w.users_per_gpu u1 with hg1def
  set g2 := gpu_count w.base_gpus w.users_per_gpu u2 with hg2def
  have hg1pos : (1 : ℤ) ≤ g1 := le_trans hbase (le_max_left _ _)
  have hg1q : (0 : ℚ) ≤ (g1 : ℚ) := by
    exact_mod_cast le_trans zero_le_one hg1pos
  have hgq : (g1 : ℚ) ≤ (g2 : ℚ) := by exact_mod_cast hg
  have hbr : w.egress_gb_per_gpu_base + w.egress_gb_per_user * (u1 : ℚ)
      ≤ w.egress_gb_per_gpu_base + w.egress_gb_per_user * (u2 : ℚ) :=
    add_le_add_left (mul_le_mul_of_nonneg_left h12q heu) _
  have hkey : (w.egress_gb_per_gpu_base + w.egress_gb_per_user * (u1 : ℚ)) * (g1 : ℚ)
      ≤ (w.egress_gb_per_gpu_base + w.egress_gb_per_user * (u2 : ℚ)) * (g2 : ℚ) := by
    by_cases hpos : 0 ≤ w.egress_gb_per_gpu_base + w.egress_gb_per_user * (u2 : ℚ)
    · exact mul_le_mul hbr hgq hg1q hpos
    · push_neg at hpos
      have hu2neg : (u2 : ℚ) < 0 := by
        by_contra hcon
        push_neg at hcon
        nlinarith [mul_nonneg heu hcon]
      have hu1neg : (u1 : ℚ) ≤ 0 := le_of_lt (lt_of_le_of_lt h12q hu2neg)
      have hceil1 : raw_needed w.users_per_gpu u1 ≤ 0 := by
        apply Int.ceil_le.mpr
        rw [Int.cast_zero]
        exact div_nonpos_iff.mpr (Or.inr ⟨hu1neg, hupg.le⟩)
      have hceil2 : raw_needed w.users_per_gpu u2 ≤ 0 := by
        apply Int.ceil_le.mpr
        rw [Int.cast_zero]
        exact div_nonpos_iff.mpr (Or.inr ⟨hu2neg.le, hupg.le⟩)
      have hg1b : g1 = w.base_gpus := max_eq_left (le_trans hceil1 (by linarith))
      have hg2b : g2 = w.base_gpus := max_eq_left (le_trans hceil2 (by linarith))
      calc (w.egress_gb_per_gpu_base + w.egress_gb_per_user * (u1 : ℚ)) * (g1 : ℚ)
          ≤ (w.egress_gb_per_gpu_base + w.egress_gb_per_user * (u2 : ℚ)) * (g1 : ℚ) :=
            mul_le_mul_of_nonneg_right hbr hg1q
        _ = (w.egress_gb_per_gpu_base + w.egress_gb_per_user * (u2 : ℚ)) * (g2 : ℚ) := by
            rw [hg1b, hg2b]
  have hhpmq : (0 : ℚ) ≤ (hpm : ℚ) := by exact_mod_cast hhpm
  simp only [total_cost, compute_cost, storage_cost, total_storage_gb, egress_cost,
    total_egress_gb, ← hg1def, ← hg2def]
  have hcomp : (g1 : ℚ) * p.blended_hourly_usd * (hpm : ℚ)
      ≤ (g2 : ℚ) * p.blended_hourly_usd * (hpm : ℚ) :=
    mul_le_mul_of_nonneg_right (mul_le_mul_of_nonneg_right hgq hhr) hhpmq
  have hstor : w.storage_gb_per_gpu * (g1 : ℚ) * p.storage_price_per_gb_month
      ≤ w.storage_gb_per_gpu * (g2 : ℚ) * p.storage_price_per_gb_month :=
    mul_le_mul_of_nonneg_right (mul_le_mul_of_nonneg_left hgq hsg) hsp
  have hegr : (w.egress_gb_per_gpu_base + w.egress_gb_per_user * (u1 : ℚ)) * (g1 : ℚ)
        * p.egress_price_per_gb
      ≤ (w.egress_gb_per_gpu_base + w.egress_gb_per_user * (u2 : ℚ)) * (g2 : ℚ)
        * p.egress_price_per_gb :=
    mul_le_mul_of_nonneg_right hkey hep
  exact add_le_add (add_le_add hcomp hstor) hegr

/-- C4 witness at the example workload and pricing, `hours_per_month = 730`,
user counts `50 ≤ 100`. -/
theorem c4_total_cost_monotone_witness :
    total_cost exWorkload exPricing 730 50 ≤ total_cost exWorkload exPricing 730 100 :=
  c4_total_cost_monotone exWorkload exPricing 730
    (by norm_num [exWorkload]) (by norm_num [exWorkload])
    (by norm_num [exPricing]) (by norm_num [exPricing]) (by norm_num [exPricing])
    (by norm_num [exWorkload]) (by norm_num [exWorkload]) (by norm_num [exWorkload])
    (by norm_num) 50 100 (by norm_num)

/-- C10: for `max_users ≥ 1` the chart series visits exactly the user counts
`1, 1 + s, 1 + 2s, ...` with step `s = max 1 (max_users / 50)`: the i-th point
is `1 + i * s`, the points are strictly increasing, every point lies in
`[1, max_users]`, the point `1` is always present, and `max_users` itself is
present exactly when `s` divides `max_users - 1`. -/
theorem c10_chart_user_points (mu : ℕ) (hmu : 1 ≤ mu) :
    (∀ i (hi : i < (chart_users mu).length),
        (chart_users mu).get ⟨i, hi⟩ = 1 + i * chart_step mu)
      ∧ (chart_users mu).Pairwise (fun a b => a < b)
      ∧ (∀ x ∈ chart_users mu, 1 ≤ x ∧ x ≤ mu)
      ∧ 1 ∈ chart_users mu
      ∧ (mu ∈ chart_users mu ↔ chart_step mu ∣ (mu - 1)) := by
  have hs : 0 < chart_step mu := lt_of_lt_of_le Nat.one_pos (le_max_left 1 _)
  have hcnt : (mu + chart_step mu - 1) / chart_step mu
      = (mu - 1) / chart_step mu + 1 := by
    have h1 : mu + chart_step mu - 1 = (mu - 1) + chart_step mu := by omega
    rw [h1, Nat.add_div_right _ hs]
  have hmem : ∀ x : ℕ, x ∈ chart_users mu ↔
      ∃ i, i < (mu + chart_step mu - 1) / chart_step mu
        ∧ x = 1 + i * chart_step mu := by
    intro x
    rw [chart_users]
    constructor
    · intro hx
      rcases List.mem_map.mp hx with ⟨i, hi, hix⟩
      exact ⟨i, List.mem_range.mp hi, hix.symm⟩
    · rintro ⟨i, hiN, hx⟩
      exact List.mem_map.mpr ⟨i, List.mem_range.mpr hiN, hx.symm⟩
  refine ⟨?_, ?_, ?_, ?_, ?_⟩
  · intro i hi
    simp [chart_users, List.get_eq_getElem]
  · rw [List.pairwise_iff_getElem]
    intro i j hi hj hij
    have hleni : i < (mu + chart_step mu - 1) / chart_step mu := by
      simpa [chart_users] using hi
    have hlenj : j < (mu + chart_step mu - 1) / chart_step mu := by
      simpa [chart_users] using hj
    have hgi : (chart_users mu)[i] = 1 + i * chart_step mu := by
      simp [chart_users]
    have hgj : (chart_users mu)[j] = 1 + j * chart_step mu := by
      simp [chart_users]
    rw [hgi, hgj]
    have : i * chart_step mu < j * chart_step mu :=
      mul_lt_mul_of_pos_right hij hs
    omega
  · intro x hx
    rcases (hmem x).mp hx with ⟨i, hiN, hxe⟩
    rw [hcnt] at hiN
    have hile : i ≤ (mu - 1) / chart_step mu := by omega
    have h1 : i * chart_step mu ≤ ((mu - 1) / chart_step mu) * chart_step mu :=
      Nat.mul_le_mul_right _ hile
    have h2 : ((mu - 1) / chart_step mu) * chart_step mu ≤ mu - 1 :=
      Nat.div_mul_le_self _ _
    subst hxe
    refine ⟨Nat.le_add_right 1 _, ?_⟩
    calc 1 + i * chart_step mu ≤ 1 + (mu - 1) :=
          Nat.add_le_add_left (le_trans h1 h2) 1
      _ = mu := by omega
  · apply (hmem 1).mpr
    refine ⟨0, ?_, by simp⟩
    rw [hcnt]
    exact Nat.succ_pos _
  · constructor
    · intro h
      rcases (hmem mu).mp h with ⟨i, _, hx⟩
      have hx1 : mu - 1 = i * chart_step mu := by
        conv_lhs => rw [hx]
        exact Nat.add_sub_cancel_left 1 _
      rw [hx1]
      exact dvd_mul_left _ _
    · rintro ⟨c, hc⟩
      apply (hmem mu).mpr
      refine ⟨c, ?_, ?_⟩
      · have hdc : (mu - 1) / chart_step mu = c := by
          rw [hc, Nat.mul_div_cancel_left _ hs]
        rw [hcnt, hdc]
        exact Nat.lt_succ_self _
      · have h2 : mu = 1 + chart_step mu * c := by
          rw [← hc]
          omega
        exact h2.trans (by rw [Nat.mul_comm])

/-- C10 witness at `max_users = 10` (step `1`): the series contains `1` and,
since `1 ∣ 9`, also `10`. -/
theorem c10_chart_user_points_witness :
    1 ∈ chart_users 10 ∧ (10 ∈ chart_users 10 ↔ chart_step 10 ∣ 9) :=
  ⟨(c10_chart_user_points 10 (by norm_num)).2.2.2.1,
   (c10_chart_user_points 10 (by norm_num)).2.2.2.2⟩

end CloudCost
